import Mathlib

/-!
Verification development for the portos-ai-toolkit core: the error
classifier (`src/server/errorDetection.js`), the availability and fallback
tracker (`src/server/providerStatus.js`) and the run executor
(`src/server/runner.js`), shallowly embedded in Lean.  JavaScript strings
are modelled as Lean `String`, truthiness of strings/options is made
explicit, machine timestamps are `Nat` milliseconds, and the regular
expressions of the source are translated into executable scanners over
`List Char` (case-insensitive search, `.?` and `.*` gaps, digit runs),
faithful to the source patterns on the character classes they use.
JavaScript whitespace (`\s`) is modelled by `Char.isWhitespace` (ASCII).
-/

namespace Toolkit

/-- The newline character, written via its code point to keep matching on
the JS `.` class (any char except newline) explicit. -/
def newlineChar : Char := Char.ofNat 10

/-- The double-quote character. -/
def quoteChar : Char := Char.ofNat 34

/-- The letter `s`, used for the optional plural suffix in the time
patterns. -/
def sChar : Char := Char.ofNat 115

/-- The comma character, used by the `[,\s]*` separator of the loose
day/hour/minute pattern. -/
def commaChar : Char := Char.ofNat 44

/-- JS `\s` (approximated by ASCII whitespace, as in `Char.isWhitespace`). -/
def jsWhitespace (c : Char) : Bool := c.isWhitespace

/-- Case-insensitive literal test: does `pat` (given lowercase) start the
string `u`, comparing characters after `Char.toLower`? -/
def ciStartsWith : List Char → List Char → Bool
  | [], _ => true
  | _ :: _, [] => false
  | p :: ps, c :: cs => (p == c.toLower) && ciStartsWith ps cs

/-- Matcher for a chain of literals separated by `.?` gaps (at most one
non-newline character between consecutive literals), anchored at the head
of the input.  `chainGapFrom [a, b] s` is the JS regex `a.?b` tested at the
start of `s`. -/
def chainGapFrom : List (List Char) → List Char → Bool
  | [], _ => true
  | [p], s => ciStartsWith p s
  | p :: q :: ps, s =>
    ciStartsWith p s &&
      (let rest := s.drop p.length
       chainGapFrom (q :: ps) rest ||
         (match rest with
          | [] => false
          | c :: r2 => !(c == newlineChar) && chainGapFrom (q :: ps) r2))

/-- Unanchored search for a `.?`-gapped chain of literals: the JS
`String.prototype.match` search of `a.?b` over the whole string. -/
def scanChain (parts : List (List Char)) : List Char → Bool
  | [] => chainGapFrom parts []
  | c :: rest => chainGapFrom parts (c :: rest) || scanChain parts rest

/-- Case-insensitive regex-fragment search: `chainCI [a] s` is `/a/i.test(s)`
and `chainCI [a, b] s` is `/a.?b/i.test(s)` (patterns given lowercase). -/
def chainCI (parts : List String) (s : String) : Bool :=
  scanChain (parts.map (fun p => p.data)) s.data

/-- After a `.*` gap (any run of non-newline characters), does one of the
alternative literals occur?  Anchored at the head of the input. -/
def starThenAny (alts : List (List Char)) : List Char → Bool
  | [] => alts.any (fun a => ciStartsWith a [])
  | c :: rest =>
    alts.any (fun a => ciStartsWith a (c :: rest)) ||
      (!(c == newlineChar) && starThenAny alts rest)

/-- Unanchored search for `p.*(alt1|alt2|...)`: a literal followed, with
only non-newline characters between, by one of the alternatives. -/
def scanLitStar (p : List Char) (alts : List (List Char)) : List Char → Bool
  | [] => ciStartsWith p [] && starThenAny alts []
  | c :: rest =>
    (ciStartsWith p (c :: rest) && starThenAny alts ((c :: rest).drop p.length)) ||
      scanLitStar p alts rest

/-- Decimal value of a run of digit characters (JS `parseInt` on `\d+`). -/
def digitsToNat (ds : List Char) : Nat :=
  ds.foldl (fun acc c => acc * 10 + (c.toNat - 48)) 0

/-- JS `a || b` for strings: `b` when `a` is falsy (empty), else `a`. -/
def jsOrStr (a b : String) : String := if a == "" then b else a

/-- JS `a || b` where `a` is a nullable string: the fallback when `a` is
null or empty. -/
def jsOrOptStr (a : Option String) (b : String) : String :=
  match a with
  | none => b
  | some s => if s == "" then b else s

/-- JS `a || null` for a nullable string: empty collapses to null. -/
def jsNullable (a : Option String) : Option String :=
  match a with
  | none => none
  | some s => if s == "" then none else some s

/-- JS `a || b` where `a` is a nullable number: the fallback when `a` is
null or zero. -/
def jsOrNat (a : Option Nat) (b : Nat) : Nat :=
  match a with
  | none => b
  | some n => if n == 0 then b else n

/-- Strip leading and trailing whitespace from a character list. -/
def trimChars (cs : List Char) : List Char :=
  ((cs.dropWhile jsWhitespace).reverse.dropWhile jsWhitespace).reverse

/-- JS `String.prototype.trim`. -/
def jsTrim (s : String) : String := String.mk (trimChars s.data)

/-- JS `String.prototype.split('\n')` over the character list: splits at
every newline, keeping empty segments (`"".split` is `[""]`). -/
def splitLines : List Char → List (List Char)
  | [] => [[]]
  | c :: rest =>
    if c == newlineChar then [] :: splitLines rest
    else
      match splitLines rest with
      | l :: ls => (c :: l) :: ls
      | [] => [[c]]

end Toolkit

namespace Toolkit

/-! ## Error Classifier (`src/server/errorDetection.js`) -/

namespace ERROR_CATEGORIES

/-- `ERROR_CATEGORIES.RATE_LIMIT`. -/
def RATE_LIMIT : String := "rate-limit"

/-- `ERROR_CATEGORIES.USAGE_LIMIT`. -/
def USAGE_LIMIT : String := "usage-limit"

/-- `ERROR_CATEGORIES.AUTH_ERROR`. -/
def AUTH_ERROR : String := "auth-error"

/-- `ERROR_CATEGORIES.MODEL_NOT_FOUND`. -/
def MODEL_NOT_FOUND : String := "model-not-found"

/-- `ERROR_CATEGORIES.NETWORK_ERROR`. -/
def NETWORK_ERROR : String := "network-error"

/-- `ERROR_CATEGORIES.TIMEOUT`. -/
def TIMEOUT : String := "timeout"

/-- `ERROR_CATEGORIES.QUOTA_EXCEEDED`. -/
def QUOTA_EXCEEDED : String := "quota-exceeded"

/-- `ERROR_CATEGORIES.UNKNOWN`. -/
def UNKNOWN : String := "unknown"

end ERROR_CATEGORIES

/-- One entry of the ordered `ERROR_PATTERNS` rule list: the regex is
embedded as its executable `test`. -/
structure ErrorPattern where
  test : String → Bool
  category : String
  requiresFallback : Bool
  actionable : Bool
  suggestedFix : String
  extractWaitTime : Bool := false

/-- The ordered rule list `ERROR_PATTERNS`; order matters, the first
matching rule wins.  Each `test` is the source regex over the text. -/
def ERROR_PATTERNS : List ErrorPattern := [
  -- /billing|payment|credit|insufficient funds/i
  { test := fun s => chainCI [("billing")] s || chainCI [("payment")] s ||
      chainCI [("credit")] s || chainCI [("insufficient funds")] s,
    category := ERROR_CATEGORIES.QUOTA_EXCEEDED,
    requiresFallback := true, actionable := true,
    suggestedFix := "Check billing status and add credits to the provider account" },
  -- /API Error: 429|rate.?limit|too many requests/i
  { test := fun s => chainCI [("api error: 429")] s || chainCI [("rate"), ("limit")] s ||
      chainCI [("too many requests")] s,
    category := ERROR_CATEGORIES.RATE_LIMIT,
    requiresFallback := false, actionable := false,
    suggestedFix := "Wait and retry - temporary rate limiting" },
  -- /(?:hit your usage limit|You've hit your limit|usage limit|Upgrade to Pro)/i
  { test := fun s => chainCI [("hit your usage limit")] s || chainCI [("you\x27ve hit your limit")] s ||
      chainCI [("usage limit")] s || chainCI [("upgrade to pro")] s,
    category := ERROR_CATEGORIES.USAGE_LIMIT,
    requiresFallback := true, actionable := true,
    suggestedFix := "Provider usage limit reached. Using fallback provider or wait for limit reset.",
    extractWaitTime := true },
  -- /unauthorized|invalid.?api.?key|authentication|forbidden|401|403/i
  { test := fun s => chainCI [("unauthorized")] s || chainCI [("invalid"), ("api"), ("key")] s ||
      chainCI [("authentication")] s || chainCI [("forbidden")] s ||
      chainCI [("401")] s || chainCI [("403")] s,
    category := ERROR_CATEGORIES.AUTH_ERROR,
    requiresFallback := true, actionable := true,
    suggestedFix := "Check API key configuration for this provider" },
  -- /model.*(not found|does not exist|unavailable)|invalid model/i
  { test := fun s => scanLitStar ("model").data
      [("not found").data, ("does not exist").data, ("unavailable").data] s.data ||
      chainCI [("invalid model")] s,
    category := ERROR_CATEGORIES.MODEL_NOT_FOUND,
    requiresFallback := true, actionable := true,
    suggestedFix := "Check model name and availability in provider settings" },
  -- /ECONNREFUSED|ENOTFOUND|network error|connection refused|timeout|ETIMEDOUT/i
  { test := fun s => chainCI [("econnrefused")] s || chainCI [("enotfound")] s ||
      chainCI [("network error")] s || chainCI [("connection refused")] s ||
      chainCI [("timeout")] s || chainCI [("etimedout")] s,
    category := ERROR_CATEGORIES.NETWORK_ERROR,
    requiresFallback := false, actionable := false,
    suggestedFix := "Check network connectivity and provider endpoint URL" },
  -- /timed out|timeout exceeded|SIGTERM/i
  { test := fun s => chainCI [("timed out")] s || chainCI [("timeout exceeded")] s ||
      chainCI [("sigterm")] s,
    category := ERROR_CATEGORIES.TIMEOUT,
    requiresFallback := false, actionable := false,
    suggestedFix := "Consider increasing timeout or reducing prompt complexity" }
]

end Toolkit

namespace Toolkit

/-- The space character (used when the source joins capture groups). -/
def spaceChar : Char := Char.ofNat 32

/-- The open parenthesis character. -/
def openParenChar : Char := Char.ofNat 40

/-- The close parenthesis character. -/
def closeParenChar : Char := Char.ofNat 41

/-- Tail of wait-time pattern 1 after the literal `reset`:
`s?\s+(\d{1,2}(?:am|pm)?)\s*\(([^)]+)\)`; returns the two capture groups
joined with a space (the source joins `match.slice(1)` with a space). -/
def p1Tail (u : List Char) : Option (List Char) :=
  let u0 := match u with
    | c :: rest => if c.toLower == sChar then rest else u
    | [] => u
  let ws := u0.takeWhile jsWhitespace
  if ws.isEmpty then none
  else
    let u1 := u0.drop ws.length
    let ds := u1.takeWhile Char.isDigit
    if ds.isEmpty || decide (ds.length > 2) then none
    else
      let u2 := u1.drop ds.length
      let ampmLen := if ciStartsWith ("am").data u2 || ciStartsWith ("pm").data u2 then 2 else 0
      let g1 := ds ++ u2.take ampmLen
      let u3 := u2.drop ampmLen
      let u4 := u3.drop ((u3.takeWhile jsWhitespace).length)
      match u4 with
      | c :: rest =>
        if c == openParenChar then
          let tz := rest.takeWhile (fun ch => !(ch == closeParenChar))
          if tz.isEmpty then none
          else if (rest.drop tz.length).head? == some closeParenChar then
            some (g1 ++ [spaceChar] ++ tz)
          else none
        else none
      | [] => none

/-- One iteration of the repetition `(?:\d+\s*(?:day|hour|minute|second)s?\s*)`
anchored at `u`: the number of characters it consumes, or `none`. -/
def repIter (u : List Char) : Option Nat :=
  let ds := u.takeWhile Char.isDigit
  if ds.isEmpty then none
  else
    let u1 := u.drop ds.length
    let ws1 := u1.takeWhile jsWhitespace
    let u2 := u1.drop ws1.length
    match [("day").data, ("hour").data, ("minute").data, ("second").data].find?
        (fun a => ciStartsWith a u2) with
    | none => none
    | some a =>
      let u3 := u2.drop a.length
      let sLen := match u3 with
        | c :: _ => if c.toLower == sChar then 1 else 0
        | [] => 0
      let u4 := u3.drop sLen
      some (ds.length + ws1.length + a.length + sLen + (u4.takeWhile jsWhitespace).length)

/-- Greedy one-or-more repetition of `repIter` (fuelled; each iteration
consumes at least one character, so `length + 1` fuel suffices). -/
def repGo : Nat → List Char → Option Nat
  | 0, _ => none
  | fuel + 1, u =>
    match repIter u with
    | none => none
    | some n =>
      match repGo fuel (u.drop n) with
      | some m => some (n + m)
      | none => some n

/-- Tail of wait-time patterns 2 and 3 after their key literal:
`\s+((?:\d+\s*(?:day|hour|minute|second)s?\s*)+)`, returning the capture. -/
def repTail (u : List Char) : Option (List Char) :=
  let ws := u.takeWhile jsWhitespace
  if ws.isEmpty then none
  else
    let u1 := u.drop ws.length
    match repGo (u1.length + 1) u1 with
    | some n => some (u1.take n)
    | none => none

/-- Tail of wait-time pattern 4 after the literal `in`:
`\s+(\d+)\s*(day|hour|minute|second)s?`, returning the two captures joined
with a space. -/
def p4Tail (u : List Char) : Option (List Char) :=
  let ws := u.takeWhile jsWhitespace
  if ws.isEmpty then none
  else
    let u1 := u.drop ws.length
    let ds := u1.takeWhile Char.isDigit
    if ds.isEmpty then none
    else
      let u2 := u1.drop ds.length
      let u3 := u2.drop ((u2.takeWhile jsWhitespace).length)
      match [("day").data, ("hour").data, ("minute").data, ("second").data].find?
          (fun a => ciStartsWith a u3) with
      | none => none
      | some a => some (ds ++ [spaceChar] ++ u3.take a.length)

/-- Generic scan used by patterns 1-4: try the regex at each occurrence of
its leading literal `key`, leftmost first, applying `tail` to the rest. -/
def scanKeyWith (key : List Char) (tail : List Char → Option (List Char)) :
    List Char → Option (List Char)
  | [] => none
  | c :: rest =>
    if ciStartsWith key (c :: rest) then
      match tail ((c :: rest).drop key.length) with
      | some cap => some cap
      | none => scanKeyWith key tail rest
    else scanKeyWith key tail rest

/-- One optional group of wait-time pattern 5, `\d+\s*UNIT(?:ute)?(?:s)?`
(`ute` only tried for the `min` group): characters consumed, or `none`. -/
def p5Group (unit : List Char) (ute : Bool) (u : List Char) : Option Nat :=
  let ds := u.takeWhile Char.isDigit
  if ds.isEmpty then none
  else
    let u1 := u.drop ds.length
    let ws := u1.takeWhile jsWhitespace
    let u2 := u1.drop ws.length
    if ciStartsWith unit u2 then
      let u3 := u2.drop unit.length
      let uteLen := if ute && ciStartsWith ("ute").data u3 then 3 else 0
      let u4 := u3.drop uteLen
      let sLen := match u4 with
        | c :: _ => if c.toLower == sChar then 1 else 0
        | [] => 0
      some (ds.length + ws.length + unit.length + uteLen + sLen)
    else none

/-- The `[,\s]*` separator of wait-time pattern 5. -/
def sepLen (u : List Char) : Nat :=
  (u.takeWhile (fun c => c == commaChar || jsWhitespace c)).length

/-- Wait-time pattern 5,
`(\d+\s*day(?:s)?)?[,\s]*(\d+\s*hour(?:s)?)?[,\s]*(\d+\s*min(?:ute)?(?:s)?)?`:
every part optional, so as a regex it always matches at index 0; the present
capture groups, in order. -/
def p5Caps (u : List Char) : List (List Char) :=
  let s1 := match p5Group ("day").data false u with
    | some n => some (u.take n, u.drop n)
    | none => none
  let g1 := match s1 with | some pr => [pr.1] | none => []
  let u1 := match s1 with | some pr => pr.2 | none => u
  let u1b := u1.drop (sepLen u1)
  let s2 := match p5Group ("hour").data false u1b with
    | some n => some (u1b.take n, u1b.drop n)
    | none => none
  let g2 := match s2 with | some pr => [pr.1] | none => []
  let u2 := match s2 with | some pr => pr.2 | none => u1b
  let u2b := u2.drop (sepLen u2)
  let g3 := match p5Group ("min").data true u2b with
    | some n => [u2b.take n]
    | none => []
  g1 ++ g2 ++ g3

/-- One match of the last-resort global scan
`/(\d+)\s*(day|hour|min|sec)(?:ute)?(?:s)?/gi` anchored at `u`: characters
consumed, or `none`. -/
def genMatchLen (u : List Char) : Option Nat :=
  let ds := u.takeWhile Char.isDigit
  if ds.isEmpty then none
  else
    let u1 := u.drop ds.length
    let ws := u1.takeWhile jsWhitespace
    let u2 := u1.drop ws.length
    match [("day").data, ("hour").data, ("min").data, ("sec").data].find?
        (fun a => ciStartsWith a u2) with
    | none => none
    | some a =>
      let u3 := u2.drop a.length
      let uteLen := if ciStartsWith ("ute").data u3 then 3 else 0
      let u4 := u3.drop uteLen
      let sLen := match u4 with
        | c :: _ => if c.toLower == sChar then 1 else 0
        | [] => 0
      some (ds.length + ws.length + a.length + uteLen + sLen)

/-- The global (`g`-flagged) scan collecting every non-overlapping match of
the last-resort time pattern, left to right (fuelled by the input length). -/
def genScan : Nat → List Char → List (List Char)
  | 0, _ => []
  | _, [] => []
  | fuel + 1, c :: rest =>
    match genMatchLen (c :: rest) with
    | some n => (c :: rest).take n :: genScan fuel ((c :: rest).drop n)
    | none => genScan fuel rest

/-- The source's per-pattern acceptance step: a matched pattern yields its
joined, trimmed capture text, kept only if non-empty (`timeStr &&
timeStr !== ' '`). -/
def waitCandidate (o : Option (List Char)) : Option String :=
  match o with
  | none => none
  | some cap =>
    let timeStr := jsTrim (String.mk cap)
    if timeStr == "" || timeStr == " " then none else some timeStr

/-- `extractWaitTime(text)`: try the five `WAIT_TIME_PATTERNS` in order,
returning the first pattern's non-empty joined capture text; fall back to
the global `<number><unit>` scan; `null` when nothing matches. -/
def extractWaitTime (text : String) : Option String :=
  if text == "" then none
  else
    let cs := text.data
    match waitCandidate (scanKeyWith ("reset").data p1Tail cs) with
    | some r => some r
    | none =>
    match waitCandidate (scanKeyWith ("try again in").data repTail cs) with
    | some r => some r
    | none =>
    match waitCandidate (scanKeyWith ("wait").data repTail cs) with
    | some r => some r
    | none =>
    match waitCandidate (scanKeyWith ("in").data p4Tail cs) with
    | some r => some r
    | none =>
    match waitCandidate (some (List.intercalate [spaceChar] (p5Caps cs))) with
    | some r => some r
    | none =>
    match genScan (cs.length + 1) cs with
    | [] => none
    | ms => some (String.mk (List.intercalate [spaceChar] ms))

end Toolkit

namespace Toolkit

/-- Backtracking tail of the message patterns `KEY\s*(.+?)(?:\n|$)`: the
greedy `\s*` tries the offsets of the whitespace run longest first, and the
lazy capture is the non-empty run of non-newline characters up to the next
newline or the end. -/
def captureFromOffset : Nat → List Char → Option (List Char)
  | 0, u =>
    let c := u.takeWhile (fun ch => !(ch == newlineChar))
    if c.isEmpty then none else some c
  | k + 1, u =>
    let t := u.drop (k + 1)
    let c := t.takeWhile (fun ch => !(ch == newlineChar))
    if c.isEmpty then captureFromOffset k u else some c

/-- Tail for `Error:`/`failed:` message extraction: `\s*(.+?)(?:\n|$)`. -/
def lineCapTail (u : List Char) : Option (List Char) :=
  captureFromOffset ((u.takeWhile jsWhitespace).length) u

/-- Tail for the quoted message patterns: `\s*"([^"]+)"` (the greedy
whitespace run is forced since a quote is not whitespace). -/
def quotedTail (u : List Char) : Option (List Char) :=
  let t := u.drop ((u.takeWhile jsWhitespace).length)
  match t with
  | c :: rest =>
    if c == quoteChar then
      let cap := rest.takeWhile (fun ch => !(ch == quoteChar))
      if cap.isEmpty then none
      else if (rest.drop cap.length).head? == some quoteChar then some cap else none
    else none
  | [] => none

/-- `extractErrorMessage(text)`: first capture of the ordered message
patterns (`Error:`, `error":"…"`, `message":"…"`, `failed:`), trimmed; else
the first non-blank line capped at 200 characters; else the text itself
capped at 200. -/
def extractErrorMessage (text : String) : String :=
  if text == "" then ""
  else
    let cs := text.data
    let m := match scanKeyWith ("error:").data lineCapTail cs with
      | some cap => some cap
      | none => match scanKeyWith ("error\x22:").data quotedTail cs with
        | some cap => some cap
        | none => match scanKeyWith ("message\x22:").data quotedTail cs with
          | some cap => some cap
          | none => scanKeyWith ("failed:").data lineCapTail cs
    match m with
    | some cap => jsTrim (String.mk cap)
    | none =>
      let lines := (splitLines text.data).filter (fun l => !(trimChars l).isEmpty)
      match lines.head? with
      | some l => String.mk (l.take 200)
      | none => String.mk (text.data.take 200)

/-- The classifier's value object (`hasError`, category, extracted message,
raw wait-time text, fallback/actionable flags, suggested remediation). -/
structure ErrorAnalysis where
  hasError : Bool
  category : Option String
  message : Option String
  waitTime : Option String
  requiresFallback : Bool
  actionable : Bool
  suggestedFix : Option String
deriving DecidableEq, Repr

/-- The no-error classification returned for successful cases. -/
def noErrorResult : ErrorAnalysis :=
  { hasError := false, category := none, message := none, waitTime := none,
    requiresFallback := false, actionable := false, suggestedFix := none }

/-- JS falsiness of the nullable `errorText` argument (`!errorText`). -/
def textIsFalsy : Option String → Bool
  | none => true
  | some t => t == ""

/-- `analyzeError(errorText, exitCode)`: empty text with exit code 0 is the
immediate no-error case; otherwise the ordered `ERROR_PATTERNS` are tried
and the first match wins; an unmatched text with a non-zero, non-null exit
code is `unknown`; anything else is no-error. -/
def analyzeError (errorText : Option String) (exitCode : Option Int) : ErrorAnalysis :=
  if textIsFalsy errorText && exitCode == some 0 then noErrorResult
  else
    let text := errorText.getD ("")
    match ERROR_PATTERNS.find? (fun p => p.test text) with
    | some p =>
      { hasError := true, category := some p.category,
        message := some (extractErrorMessage text),
        waitTime := if p.extractWaitTime then extractWaitTime text else none,
        requiresFallback := p.requiresFallback, actionable := p.actionable,
        suggestedFix := some p.suggestedFix }
    | none =>
      match exitCode with
      | none => noErrorResult
      | some c =>
        if c == 0 then noErrorResult
        else
          { hasError := true, category := some ERROR_CATEGORIES.UNKNOWN,
            message := some (jsOrStr (extractErrorMessage text)
              (("Process exited with code ") ++ toString c)),
            waitTime := none, requiresFallback := false, actionable := false,
            suggestedFix := none }

/-- `isRateLimitStatus(statusCode)`. -/
def isRateLimitStatus (statusCode : Int) : Bool := statusCode == 429

/-- `isAuthErrorStatus(statusCode)`. -/
def isAuthErrorStatus (statusCode : Int) : Bool := statusCode == 401 || statusCode == 403

/-- The destructured argument of `analyzeHttpError`. -/
structure HttpResponse where
  status : Int
  statusText : String
  body : String
deriving DecidableEq, Repr

/-- `analyzeHttpError({status, statusText, body})`: 2xx is no-error; then
429 is rate-limit and 401/403 auth-error by status code alone; then a
truthy body is classified by `analyzeError` (with no exit code); else
`unknown` with the status text as message. -/
def analyzeHttpError (response : HttpResponse) : ErrorAnalysis :=
  if 200 ≤ response.status ∧ response.status < 300 then noErrorResult
  else if isRateLimitStatus response.status then
    { hasError := true, category := some ERROR_CATEGORIES.RATE_LIMIT,
      message := some (("Rate limit exceeded (") ++ toString response.status ++ (")")),
      waitTime := extractWaitTime response.body,
      requiresFallback := false, actionable := false,
      suggestedFix := some ("Wait and retry - temporary rate limiting") }
  else if isAuthErrorStatus response.status then
    { hasError := true, category := some ERROR_CATEGORIES.AUTH_ERROR,
      message := some (("Authentication failed (") ++ toString response.status ++ (")")),
      waitTime := none, requiresFallback := true, actionable := true,
      suggestedFix := some ("Check API key configuration for this provider") }
  else if !(response.body == "") then
    analyzeError (some response.body) none
  else
    { hasError := true, category := some ERROR_CATEGORIES.UNKNOWN,
      message := some (jsOrStr response.statusText (("HTTP ") ++ toString response.status)),
      waitTime := none, requiresFallback := false, actionable := false,
      suggestedFix := none }

end Toolkit

namespace Toolkit

/-! ## Availability & Fallback Tracker (`src/server/providerStatus.js`)

Timestamps are epoch milliseconds (`Nat`); the JS ISO-string round trip
`new Date(x).getTime()` is the identity in this model.  The persisted
`statusCache.providers` object is an insertion-ordered association list. -/

/-- One `Backend Status Record` of the persisted status map.  Fields the
source leaves `undefined` on some records are `Option`s. -/
structure StatusRecord where
  available : Bool
  reason : String
  message : String
  waitTime : Option String := none
  unavailableSince : Option Nat := none
  estimatedRecovery : Option Nat := none
  failureCount : Option Nat := none
  lastChecked : Nat
deriving DecidableEq, Repr

/-- The configurable parameters of `createProviderStatusService` used by
the status logic. -/
structure StatusConfig where
  defaultFallbackPriority : List String :=
    [("claude-code"), ("codex"), ("lmstudio"), ("local-lm-studio"), ("ollama"), ("gemini-cli")]
  defaultUsageLimitWait : Nat := 24 * 60 * 60 * 1000
  defaultRateLimitWait : Nat := 5 * 60 * 1000

/-- The in-memory provider status map (`statusCache.providers`). -/
abbrev StatusMap : Type := List (String × StatusRecord)

/-- JS object property read `providers[id]`. -/
def lookupRec (m : StatusMap) (providerId : String) : Option StatusRecord :=
  ((m : List (String × StatusRecord)).find? (fun kv => kv.1 == providerId)).map (fun kv => kv.2)

/-- JS object property write `providers[id] = v`: replaces in place, else
appends (insertion order). -/
def setKey : StatusMap → String → StatusRecord → StatusMap
  | [], k, v => [(k, v)]
  | (k0, v0) :: rest, k, v =>
    if k0 == k then (k, v) :: rest else (k0, v0) :: setKey rest k v

/-- Leftmost first-occurrence match of `/(\d+)\s*UNIT/i`: the digit run at
the earliest position followed (after whitespace) by the unit literal. -/
def unitScan (unit : List Char) : List Char → Option Nat
  | [] => none
  | c :: rest =>
    let u := c :: rest
    let ds := u.takeWhile Char.isDigit
    if ds.isEmpty then unitScan unit rest
    else
      let u2 := u.drop ds.length
      let u3 := u2.drop ((u2.takeWhile jsWhitespace).length)
      if ciStartsWith unit u3 then some (digitsToNat ds) else unitScan unit rest

/-- `parseWaitTime(waitTimeStr)`: sum the first day/hour/min/sec component
matches of the free-text string into milliseconds; `totalMs || null`. -/
def parseWaitTime (waitTimeStr : Option String) : Option Nat :=
  match waitTimeStr with
  | none => none
  | some s =>
    if s == "" then none
    else
      let cs := s.data
      let totalMs :=
        ((unitScan ("day").data cs).getD 0) * (24 * 60 * 60 * 1000) +
        ((unitScan ("hour").data cs).getD 0) * (60 * 60 * 1000) +
        ((unitScan ("min").data cs).getD 0) * (60 * 1000) +
        ((unitScan ("sec").data cs).getD 0) * 1000
      if totalMs == 0 then none else some totalMs

/-- The synthesized Available record `getStatus` returns for an unknown id
(and the record `init()`/`markAvailable` write on recovery, up to the
`failureCount` field). -/
def availableRecord (now : Nat) : StatusRecord :=
  { available := true, reason := ("ok"), message := ("Provider available"),
    lastChecked := now }

/-- `getStatus(providerId)`: the stored record, or a synthesized Available
record — never null. -/
def getStatus (m : StatusMap) (providerId : String) (now : Nat) : StatusRecord :=
  (lookupRec m providerId).getD (availableRecord now)

/-- `isAvailable(providerId)`: boolean projection of `getStatus`. -/
def isAvailable (m : StatusMap) (providerId : String) (now : Nat) : Bool :=
  (getStatus m providerId now).available

/-- The `errorInfo` argument of `markUsageLimit`. -/
structure ErrorInfo where
  message : Option String := none
  waitTime : Option String := none

/-- `markUsageLimit(providerId, errorInfo)`: resolve the wait from the
free-text `waitTime` (default 24h), set an unavailable `usage-limit` record
with `estimatedRecovery = now + wait` and an incremented failure counter;
returns the updated map and the new record. -/
def markUsageLimit (cfg : StatusConfig) (m : StatusMap) (providerId : String)
    (errorInfo : ErrorInfo) (now : Nat) : StatusMap × StatusRecord :=
  let waitTimeMs := jsOrNat (parseWaitTime errorInfo.waitTime) cfg.defaultUsageLimitWait
  let estimatedRecovery := now + waitTimeMs
  let previousStatus := lookupRec m providerId
  let failureCount := ((previousStatus.bind (fun p => p.failureCount)).getD 0) + 1
  let newStatus : StatusRecord :=
    { available := false, reason := ("usage-limit"),
      message := jsOrOptStr errorInfo.message ("Usage limit exceeded"),
      waitTime := jsNullable errorInfo.waitTime,
      unavailableSince := some now,
      estimatedRecovery := some estimatedRecovery,
      failureCount := some failureCount,
      lastChecked := now }
  (setKey m providerId newStatus, newStatus)

/-- `markRateLimited(providerId)`: identical shape with the fixed rate-limit
wait and message. -/
def markRateLimited (cfg : StatusConfig) (m : StatusMap) (providerId : String)
    (now : Nat) : StatusMap × StatusRecord :=
  let estimatedRecovery := now + cfg.defaultRateLimitWait
  let previousStatus := lookupRec m providerId
  let failureCount := ((previousStatus.bind (fun p => p.failureCount)).getD 0) + 1
  let newStatus : StatusRecord :=
    { available := false, reason := ("rate-limit"),
      message := ("Rate limit exceeded - temporary"),
      unavailableSince := some now,
      estimatedRecovery := some estimatedRecovery,
      failureCount := some failureCount,
      lastChecked := now }
  (setKey m providerId newStatus, newStatus)

/-- `markAvailable(providerId)`: force Available with `failureCount: 0`. -/
def markAvailable (m : StatusMap) (providerId : String) (now : Nat) :
    StatusMap × StatusRecord :=
  let newStatus : StatusRecord :=
    { available := true, reason := ("ok"), message := ("Provider available"),
      failureCount := some 0, lastChecked := now }
  (setKey m providerId newStatus, newStatus)

/-- The stale-status sweep of `init()` over the loaded map: every entry
with an estimated-recovery timestamp strictly in the past is replaced by
the plain Available record, and the changed flag (persist condition) is
returned alongside the cleaned map. -/
def initRun (now : Nat) : StatusMap → StatusMap × Bool
  | [] => ([], false)
  | (k, r) :: rest =>
    let prev := initRun now rest
    match r.estimatedRecovery with
    | some t =>
      if now > t then ((k, availableRecord now) :: prev.1, true)
      else ((k, r) :: prev.1, prev.2)
    | none => ((k, r) :: prev.1, prev.2)

end Toolkit

namespace Toolkit

/-- A backend/provider configuration record, as consumed by
`getFallbackProvider` (`providers[id]`). -/
structure Provider where
  id : String
  enabled : Bool
  fallbackProvider : Option String := none
deriving DecidableEq, Repr

/-- The keyed provider collection passed to `getFallbackProvider`. -/
abbrev ProviderMap : Type := List (String × Provider)

/-- JS object property read `providers[id]`. -/
def lookupProv (providers : ProviderMap) (providerId : String) : Option Provider :=
  ((providers : List (String × Provider)).find? (fun kv => kv.1 == providerId)).map
    (fun kv => kv.2)

/-- Tier 3 of `getFallbackProvider`: walk the configured system fallback
priority list, skipping the primary, accepting the first enabled and
available provider with source `system`. -/
def systemScan (m : StatusMap) (now : Nat) (primaryProviderId : String)
    (providers : ProviderMap) : List String → Option (Provider × String)
  | [] => none
  | providerId :: rest =>
    if providerId == primaryProviderId then
      systemScan m now primaryProviderId providers rest
    else
      match lookupProv providers providerId with
      | some provider =>
        if provider.enabled && isAvailable m providerId now then
          some (provider, ("system"))
        else systemScan m now primaryProviderId providers rest
      | none => systemScan m now primaryProviderId providers rest

/-- `getFallbackProvider(primaryProviderId, providers, taskFallbackId)`:
task-level fallback first (source `task`), then the primary's configured
`fallbackProvider` (source `provider`), then the system priority list
(source `system`); each candidate accepted only if enabled and available;
`null` when none qualify. -/
def getFallbackProvider (cfg : StatusConfig) (m : StatusMap) (now : Nat)
    (primaryProviderId : String) (providers : ProviderMap)
    (taskFallbackId : Option String) : Option (Provider × String) :=
  let taskTier : Option (Provider × String) :=
    match taskFallbackId with
    | some tid =>
      if !(tid == "") && !(tid == primaryProviderId) then
        match lookupProv providers tid with
        | some taskFallback =>
          if taskFallback.enabled && isAvailable m taskFallback.id now then
            some (taskFallback, ("task"))
          else none
        | none => none
      else none
    | none => none
  match taskTier with
  | some r => some r
  | none =>
    let providerTier : Option (Provider × String) :=
      match lookupProv providers primaryProviderId with
      | some primaryProvider =>
        match primaryProvider.fallbackProvider with
        | some f =>
          if !(f == "") then
            match lookupProv providers f with
            | some configuredFallback =>
              if configuredFallback.enabled && isAvailable m configuredFallback.id now then
                some (configuredFallback, ("provider"))
              else none
            | none => none
          else none
        | none => none
      | none => none
    match providerTier with
    | some r => some r
    | none => systemScan m now primaryProviderId providers cfg.defaultFallbackPriority

/-- The status maps reachable by the Tracker's mutating operations,
starting from the empty cache: the `init()` sweep applied to a previously
persisted (hence reachable) map, `markUsageLimit`, `markRateLimited` and
`markAvailable`. -/
inductive Reachable (cfg : StatusConfig) : StatusMap → Prop
  | empty : Reachable cfg []
  | sweep (m : StatusMap) (now : Nat) :
      Reachable cfg m → Reachable cfg (initRun now m).1
  | usage (m : StatusMap) (providerId : String) (errorInfo : ErrorInfo) (now : Nat) :
      Reachable cfg m → Reachable cfg (markUsageLimit cfg m providerId errorInfo now).1
  | rate (m : StatusMap) (providerId : String) (now : Nat) :
      Reachable cfg m → Reachable cfg (markRateLimited cfg m providerId now).1
  | recover (m : StatusMap) (providerId : String) (now : Nat) :
      Reachable cfg m → Reachable cfg (markAvailable m providerId now).1

/-- The status-record invariant: an Available record carries reason `ok`
and no estimated-recovery timestamp. -/
def StatusInvariant (r : StatusRecord) : Prop :=
  r.available = true → r.reason = ("ok") ∧ r.estimatedRecovery = none

end Toolkit

namespace Toolkit

/-! ## Run Executor (`src/server/runner.js`) -/

/-- One parsed SSE `data:` payload's `choices[0].delta` of the streaming
chat-completion response consumed by `executeApiRun`. -/
structure StreamDelta where
  content : Option String := none
  reasoning : Option String := none
deriving DecidableEq, Repr

/-- JS truthiness of a nullable delta field. -/
def truthyStr : Option String → Bool
  | none => false
  | some s => !(s == "")

/-- The accumulation loop of `processStream`: visible `delta.content` is
appended to `output`, `delta.reasoning` to the separate `reasoning`
accumulator. -/
def accumStream (deltas : List StreamDelta) : String × String :=
  deltas.foldl
    (fun acc d =>
      let out := if truthyStr d.content then acc.1 ++ d.content.getD ("") else acc.1
      let rsn := if truthyStr d.reasoning then acc.2 ++ d.reasoning.getD ("") else acc.2
      (out, rsn))
    (("") , (""))

/-- The terminal fields `processStream` writes into the run record on
successful stream completion. -/
structure ApiStreamTerminal where
  output : String
  exitCode : Int
  success : Bool
  outputSize : Nat
  hadReasoning : Bool
  usedReasoningAsFallback : Bool
deriving DecidableEq, Repr

/-- The end of `processStream` in `executeApiRun`: after the stream is
drained, an empty visible output with non-empty reasoning is replaced by
the reasoning (`output = reasoning`), and then the terminal metadata is
computed — including `usedReasoningAsFallback = !output.trim() &&
reasoning.trim()`, evaluated on the already-reassigned `output` (the field
records the JS truthiness of that expression). -/
def finalizeApiStream (deltas : List StreamDelta) : ApiStreamTerminal :=
  let acc := accumStream deltas
  let reasoning := acc.2
  let output :=
    if jsTrim acc.1 == "" && !(jsTrim reasoning == "") then reasoning else acc.1
  { output := output, exitCode := 0, success := true,
    outputSize := output.utf8ByteSize,
    hadReasoning := decide (reasoning.length > 0),
    usedReasoningAsFallback := (jsTrim output == "") && !(jsTrim reasoning == "") }

/-- The failure fields `executeApiRun` writes into the run record when the
initial HTTP response is not ok: the HTTP classification is embedded as
`errorAnalysis`, its category as `errorCategory`, and its message (or a
generic `API error` line) as `error`. -/
structure ApiFailureMetadata where
  success : Bool
  error : String
  errorCategory : Option String
  errorAnalysis : ErrorAnalysis
deriving DecidableEq, Repr

/-- The non-ok-response branch of `executeApiRun`, as a function of the
response's status, status text and body. -/
def apiFailureMetadata (status : Int) (statusText : String) (body : String) :
    ApiFailureMetadata :=
  let errorAnalysis := analyzeHttpError { status := status, statusText := statusText, body := body }
  { success := false,
    error := jsOrOptStr errorAnalysis.message (("API error: ") ++ toString status),
    errorCategory := errorAnalysis.category,
    errorAnalysis := errorAnalysis }

end Toolkit

namespace Toolkit

/-! ## Concrete instances used by the verification theorems -/

/-- A stream delivering only `delta.reasoning` tokens and no
`delta.content` tokens. -/
def c1Deltas : List StreamDelta :=
  [{ reasoning := some ("Hello") }, { reasoning := some (" world") }]

/-- A status map obtained by marking a backend usage-limited and then
available again (a concrete reachable state). -/
def c6Map : StatusMap :=
  (markAvailable (markUsageLimit {} [] ("x") {} 0).1 ("x") 5).1

/-- An unavailable record whose estimated recovery (10) has elapsed by time
100, with a non-zero failure counter. -/
def c7Record : StatusRecord :=
  { available := false, reason := ("usage-limit"), message := ("Usage limit exceeded"),
    unavailableSince := some 0, estimatedRecovery := some 10, failureCount := some 5,
    lastChecked := 0 }

/-- An unavailable record whose estimated recovery (1000) has not elapsed
by time 100. -/
def c7KeepRecord : StatusRecord :=
  { available := false, reason := ("rate-limit"), message := ("Rate limit exceeded - temporary"),
    unavailableSince := some 50, estimatedRecovery := some 1000, failureCount := some 1,
    lastChecked := 50 }

/-- A persisted status map with one elapsed entry. -/
def c7Map : StatusMap := [(("p"), c7Record)]

/-- A persisted status map with one elapsed entry and one not-yet-elapsed
entry. -/
def c7Map2 : StatusMap := [(("p"), c7Record), (("q"), c7KeepRecord)]

/-- Providers for the fallback-precedence witness: a primary `a` with
configured fallback `c`, and a task-level candidate `t`, all enabled. -/
def c5Providers : ProviderMap :=
  [(("t"), { id := ("t"), enabled := true }),
   (("a"), { id := ("a"), enabled := true, fallbackProvider := some ("c") }),
   (("c"), { id := ("c"), enabled := true })]

/-- A configuration whose system priority list holds only the primary and a
disabled backend. -/
def c5Cfg : StatusConfig := { defaultFallbackPriority := [("a"), ("b")] }

/-- Providers for the exhaustion witness: no task fallback, no configured
fallback, and the only non-primary system candidate disabled. -/
def c5Providers2 : ProviderMap :=
  [(("a"), { id := ("a"), enabled := true }),
   (("b"), { id := ("b"), enabled := false })]

/-- A configuration whose system priority list starts with the primary and
a disabled backend before the first qualifying candidate `s`. -/
def c5Cfg2 : StatusConfig := { defaultFallbackPriority := [("a"), ("b"), ("s")] }

/-- Providers for the system-tier witness: primary `a` with no configured
fallback, disabled `b`, and enabled `s`. -/
def c5Providers3 : ProviderMap :=
  [(("a"), { id := ("a"), enabled := true }),
   (("b"), { id := ("b"), enabled := false }),
   (("s"), { id := ("s"), enabled := true })]

end Toolkit

namespace Toolkit

/-! ## Theorems -/

/-- C1: in `executeApiRun`, a stream delivering only `delta.reasoning`
tokens does yield a terminal record whose output is the concatenated
reasoning, but the recorded `usedReasoningAsFallback` flag is false — in
fact it is false for every stream, because the source recomputes
`!output.trim() && reasoning.trim()` after `output` has already been
reassigned to the reasoning text. -/
theorem usedReasoningAsFallback_never_true :
    (∀ deltas : List StreamDelta,
      (finalizeApiStream deltas).usedReasoningAsFallback = false) ∧
    (finalizeApiStream c1Deltas).output = ("Hello world") ∧
    (finalizeApiStream c1Deltas).hadReasoning = true ∧
    (finalizeApiStream c1Deltas).success = true := by
  refine ⟨?_, by decide, by decide, by decide⟩
  intro deltas
  unfold finalizeApiStream
  cases h : (jsTrim (accumStream deltas).1 == "" && !(jsTrim (accumStream deltas).2 == "")) with
  | true =>
    simp only [h, if_true]
    have h2 : (jsTrim (accumStream deltas).2 == "") = false := by
      rcases Bool.and_eq_true .. |>.mp h with ⟨_, hr⟩
      simpa using hr
    simp [h2]
  | false =>
    simp only [h, if_false]
    simpa using h

/-- C9: `parseWaitTime` sums matched day/hour/minute components of
`"1 day 2 hours 30 minutes"` to exactly 95400000 ms, and returns null for a
string with no time components and for a null input. -/
theorem parseWaitTime_examples :
    parseWaitTime (some ("1 day 2 hours 30 minutes")) =
      some (1 * 86400000 + 2 * 3600000 + 30 * 60000) ∧
    parseWaitTime (some ("no time here")) = none ∧
    parseWaitTime none = none := by
  refine ⟨by decide, by decide, rfl⟩

/-- C10: `parseWaitTime` never returns 0 — it is null or strictly positive
(`totalMs || null` collapses a zero sum to null), so for an all-zero string
such as `"0 minutes"` it returns null and `markUsageLimit` silently falls
back to the configured default wait. -/
theorem parseWaitTime_positive :
    (∀ s : Option String,
      parseWaitTime s = none ∨ ∃ n : Nat, parseWaitTime s = some n ∧ 0 < n) ∧
    parseWaitTime (some ("0 minutes")) = none ∧
    (∀ (cfg : StatusConfig) (m : StatusMap) (providerId : String) (now : Nat),
      (markUsageLimit cfg m providerId { waitTime := some ("0 minutes") } now).2.estimatedRecovery =
        some (now + cfg.defaultUsageLimitWait)) := by
  refine ⟨?_, by decide, ?_⟩
  · intro s
    cases s with
    | none => exact Or.inl rfl
    | some str =>
      simp only [parseWaitTime]
      split
      · exact Or.inl rfl
      · split
        · exact Or.inl rfl
        · rename_i htot
          exact Or.inr ⟨_, rfl, Nat.pos_of_ne_zero (by simpa using htot)⟩
  · intro cfg m providerId now
    have hp : parseWaitTime (some ("0 minutes")) = none := by decide
    simp [markUsageLimit, hp, jsOrNat]

/-- C8: `markUsageLimit` with no explicit wait time sets
`estimatedRecovery = unavailableSince + defaultUsageLimitWait` exactly
(`unavailableSince = now`), and sets the failure counter to one more than
the previous record's counter (1 when there is no previous record or it has
no counter), regardless of the previous state. -/
theorem markUsageLimit_default_wait :
    ∀ (cfg : StatusConfig) (m : StatusMap) (providerId : String) (now : Nat)
      (msg : Option String),
      (markUsageLimit cfg m providerId { message := msg, waitTime := none } now).2.unavailableSince =
        some now ∧
      (markUsageLimit cfg m providerId { message := msg, waitTime := none } now).2.estimatedRecovery =
        some (now + cfg.defaultUsageLimitWait) ∧
      ((markUsageLimit cfg m providerId { message := msg, waitTime := none } now).2.estimatedRecovery.getD 0) -
        ((markUsageLimit cfg m providerId { message := msg, waitTime := none } now).2.unavailableSince.getD 0) =
        cfg.defaultUsageLimitWait ∧
      (markUsageLimit cfg m providerId { message := msg, waitTime := none } now).2.failureCount =
        some ((((lookupRec m providerId).bind (fun p => p.failureCount)).getD 0) + 1) := by
  intro cfg m providerId now msg
  refine ⟨rfl, rfl, ?_, rfl⟩
  show now + cfg.defaultUsageLimitWait - now = cfg.defaultUsageLimitWait
  omega

end Toolkit

namespace Toolkit

/-- C2 counterexample: with exit code 0 but non-empty pattern-matching
text, `analyzeError` does consult the rules and reports an error — the
success short-circuit requires the text to be empty as well. -/
theorem analyzeError_success_check_counterexample :
    (analyzeError (some ("rate limit")) (some 0)).hasError = true ∧
    (analyzeError (some ("rate limit")) (some 0)).category = some ERROR_CATEGORIES.RATE_LIMIT := by
  exact ⟨by decide, by decide⟩

/-- C2 (amended): a 2xx HTTP status yields no-error for every body,
checked before any rule; `analyzeError(text, 0)` yields no-error when the
text is null or empty (checked first), and also whenever no pattern
matches; but a non-empty text matching a rule is reported as an error even
with exit code 0. -/
theorem analyzeError_success_amended :
    (∀ (status : Int) (statusText body : String),
      200 ≤ status → status < 300 →
      (analyzeHttpError { status := status, statusText := statusText, body := body }).hasError = false) ∧
    (analyzeError none (some 0)).hasError = false ∧
    (analyzeError (some ("")) (some 0)).hasError = false ∧
    (∀ text : String,
      (∀ p ∈ ERROR_PATTERNS, p.test text = false) →
      (analyzeError (some text) (some 0)).hasError = false) := by
  refine ⟨?_, by decide, by decide, ?_⟩
  · intro status statusText body h1 h2
    unfold analyzeHttpError
    rw [if_pos ⟨h1, h2⟩]
    rfl
  · intro text hall
    have hfind : ERROR_PATTERNS.find? (fun p => p.test text) = none :=
      List.find?_eq_none.mpr (fun x hx => by simp [hall x hx])
    unfold analyzeError
    simp only [Option.getD_some]
    rw [hfind]
    split
    · rfl
    · rfl

/-- C3 counterexample: a non-2xx response whose body matches no pattern is
classified by `analyzeError` with no exit code, which returns a no-error
classification — so the run record's embedded classification has
`hasError = false` despite the failed (non-2xx) response. -/
theorem analyzeHttpError_hasError_counterexample :
    (apiFailureMetadata 500 ("Internal Server Error") ("hello world")).success = false ∧
    (apiFailureMetadata 500 ("Internal Server Error") ("hello world")).errorAnalysis.hasError = false := by
  exact ⟨rfl, by decide⟩

/-- C3 (amended): status 429 is rate-limit and 401/403 auth-error before
any body inspection; any other non-2xx with a non-empty body is classified
by the process classifier on the body (with no exit code, so an unmatched
body yields `hasError = false`); with no body the category is `unknown`
with `hasError = true`; and `executeApiRun` records the classification in
the failed run record. -/
theorem analyzeHttpError_precedence_amended :
    (∀ statusText body : String,
      (analyzeHttpError { status := 429, statusText := statusText, body := body }).hasError = true ∧
      (analyzeHttpError { status := 429, statusText := statusText, body := body }).category =
        some ERROR_CATEGORIES.RATE_LIMIT) ∧
    (∀ (status : Int) (statusText body : String), status = 401 ∨ status = 403 →
      (analyzeHttpError { status := status, statusText := statusText, body := body }).hasError = true ∧
      (analyzeHttpError { status := status, statusText := statusText, body := body }).category =
        some ERROR_CATEGORIES.AUTH_ERROR) ∧
    (∀ (status : Int) (statusText body : String),
      ¬(200 ≤ status ∧ status < 300) → status ≠ 429 → status ≠ 401 → status ≠ 403 →
      body ≠ ("") →
      analyzeHttpError { status := status, statusText := statusText, body := body } =
        analyzeError (some body) none) ∧
    (∀ (status : Int) (statusText : String),
      ¬(200 ≤ status ∧ status < 300) → status ≠ 429 → status ≠ 401 → status ≠ 403 →
      (analyzeHttpError { status := status, statusText := statusText, body := ("") }).hasError = true ∧
      (analyzeHttpError { status := status, statusText := statusText, body := ("") }).category =
        some ERROR_CATEGORIES.UNKNOWN) ∧
    (∀ (status : Int) (statusText body : String),
      (apiFailureMetadata status statusText body).errorAnalysis =
        analyzeHttpError { status := status, statusText := statusText, body := body } ∧
      (apiFailureMetadata status statusText body).success = false) := by
  refine ⟨?_, ?_, ?_, ?_, fun status statusText body => ⟨rfl, rfl⟩⟩
  · intro statusText body
    refine ⟨?_, ?_⟩ <;> simp [analyzeHttpError, isRateLimitStatus]
  · rintro status statusText body (rfl | rfl) <;>
      refine ⟨?_, ?_⟩ <;>
      simp [analyzeHttpError, isRateLimitStatus, isAuthErrorStatus]
  · intro status statusText body h2xx h429 h401 h403 hbody
    have hb : (body == "") = false := beq_eq_false_iff_ne.mpr hbody
    have hb429 : (status == 429) = false := beq_eq_false_iff_ne.mpr h429
    have hb401 : (status == 401) = false := beq_eq_false_iff_ne.mpr h401
    have hb403 : (status == 403) = false := beq_eq_false_iff_ne.mpr h403
    simp [analyzeHttpError, isRateLimitStatus, isAuthErrorStatus, h2xx,
      hb429, hb401, hb403, hb]
  · intro status statusText h2xx h429 h401 h403
    have hb429 : (status == 429) = false := beq_eq_false_iff_ne.mpr h429
    have hb401 : (status == 401) = false := beq_eq_false_iff_ne.mpr h401
    have hb403 : (status == 403) = false := beq_eq_false_iff_ne.mpr h403
    refine ⟨?_, ?_⟩ <;>
      simp [analyzeHttpError, isRateLimitStatus, isAuthErrorStatus, h2xx,
        hb429, hb401, hb403]

/-- Witness for C3's amended theorem at concrete responses: a 401 response,
a 500 response with a billing body, and a 503 response with no body. -/
theorem analyzeHttpError_precedence_amended_witness :
    (analyzeHttpError { status := 401, statusText := (""), body := ("x") }).category =
      some ERROR_CATEGORIES.AUTH_ERROR ∧
    analyzeHttpError { status := 500, statusText := (""), body := ("billing problem") } =
      analyzeError (some ("billing problem")) none ∧
    (analyzeHttpError { status := 503, statusText := ("Service Unavailable"), body := ("") }).category =
      some ERROR_CATEGORIES.UNKNOWN :=
  ⟨(analyzeHttpError_precedence_amended.2.1 401 ("") ("x") (Or.inl rfl)).2,
   analyzeHttpError_precedence_amended.2.2.1 500 ("") ("billing problem")
     (by decide) (by decide) (by decide) (by decide) (by decide),
   (analyzeHttpError_precedence_amended.2.2.2.1 503 ("Service Unavailable")
     (by decide) (by decide) (by decide) (by decide)).2⟩

/-- Witness for C2's amended theorem: a 2xx response whose body is error
text is still no-error, and an unmatched text with exit code 0 is no-error. -/
theorem analyzeError_success_amended_witness :
    (analyzeHttpError { status := 200, statusText := ("OK"), body := ("rate limit") }).hasError = false ∧
    (analyzeError (some ("plain text output")) (some 0)).hasError = false :=
  ⟨analyzeError_success_amended.1 200 ("OK") ("rate limit") (by decide) (by decide),
   analyzeError_success_amended.2.2.2 ("plain text output") (by decide)⟩

end Toolkit

namespace Toolkit

/-- When some element satisfies the predicate, `find?` returns exactly the
element at the first satisfying index. -/
theorem find?_eq_getElem?_findIdx {α : Type} (l : List α) (p : α → Bool)
    (h : ∃ x ∈ l, p x = true) : l.find? p = l[l.findIdx p]? := by
  induction l with
  | nil => simp at h
  | cons a t ih =>
    by_cases hp : p a
    · simp [List.find?_cons_of_pos _ hp, List.findIdx_cons, hp]
    · have h2 : ∃ x ∈ t, p x = true := by
        rcases h with ⟨x, hx, hpx⟩
        rcases List.mem_cons.mp hx with rfl | hx2
        · exact absurd hpx (by simpa using hp)
        · exact ⟨x, hx2, hpx⟩
      simp [List.find?_cons_of_neg _ hp, List.findIdx_cons, hp, ih h2]

/-- The first satisfying index is at most any satisfying index. -/
theorem findIdx_le_of_test {α : Type} (l : List α) (p : α → Bool) (i : Nat)
    (x : α) (hget : l[i]? = some x) (hp : p x = true) : l.findIdx p ≤ i := by
  by_contra hlt
  push_neg at hlt
  rcases List.getElem?_eq_some.mp hget with ⟨h1, h2⟩
  have hfalse := List.not_of_lt_findIdx hlt
  rw [h2, hp] at hfalse
  exact Bool.noConfusion hfalse

/-- No rule of `ERROR_PATTERNS` matches the empty text. -/
theorem errorPatterns_not_match_empty : ∀ p ∈ ERROR_PATTERNS, p.test ("") = false := by
  decide

/-- C4: classification rules are evaluated in list order and the first
matching rule wins: whenever the rules at positions `i < j` both match,
the result's category is that of the first matching rule, whose index is at
most `i`; in particular `"billing quota exceeded"` is classified
`quota-exceeded`, not `usage-limit`. -/
theorem errorPatterns_first_match_wins :
    (∀ (text : String) (exitCode : Option Int) (i j : Nat) (ri rj : ErrorPattern),
      i < j →
      ERROR_PATTERNS[i]? = some ri → ERROR_PATTERNS[j]? = some rj →
      ri.test text = true → rj.test text = true →
      ERROR_PATTERNS.findIdx (fun p => p.test text) ≤ i ∧
      (analyzeError (some text) exitCode).category =
        (ERROR_PATTERNS[ERROR_PATTERNS.findIdx (fun p => p.test text)]?).map
          (fun p => p.category)) ∧
    (analyzeError (some ("billing quota exceeded")) none).category =
      some ERROR_CATEGORIES.QUOTA_EXCEEDED ∧
    (analyzeError (some ("billing quota exceeded")) none).category ≠
      some ERROR_CATEGORIES.USAGE_LIMIT := by
  refine ⟨?_, by decide, by decide⟩
  intro text exitCode i j ri rj hij hgi hgj hri hrj
  have hmem : ri ∈ ERROR_PATTERNS := by
    rcases List.getElem?_eq_some.mp hgi with ⟨h1, h2⟩
    exact h2 ▸ List.getElem_mem h1
  have hex : ∃ x ∈ ERROR_PATTERNS, (fun p => p.test text) x = true := ⟨ri, hmem, hri⟩
  have hlt : ERROR_PATTERNS.findIdx (fun p => p.test text) < ERROR_PATTERNS.length :=
    List.findIdx_lt_length.mpr (by simpa using hex)
  refine ⟨findIdx_le_of_test _ _ i ri hgi hri, ?_⟩
  have htext : ¬(text = "") := by
    intro he
    subst he
    have hfalse := errorPatterns_not_match_empty ri hmem
    rw [hri] at hfalse
    exact Bool.noConfusion hfalse
  have hfalsy : textIsFalsy (some text) = false := beq_eq_false_iff_ne.mpr htext
  have hfind : ERROR_PATTERNS.find? (fun p => p.test text) =
      ERROR_PATTERNS[ERROR_PATTERNS.findIdx (fun p => p.test text)]? :=
    find?_eq_getElem?_findIdx _ _ (by simpa using hex)
  obtain ⟨rk, hrk⟩ : ∃ rk,
      ERROR_PATTERNS[ERROR_PATTERNS.findIdx (fun p => p.test text)]? = some rk :=
    ⟨_, List.getElem?_eq_getElem hlt⟩
  unfold analyzeError
  rw [hfalsy]
  simp only [Bool.false_and, Bool.false_eq_true, if_false, Option.getD_some]
  rw [hfind, hrk]
  rfl

/-- Witness for C4 at a text matching both the quota rule (index 0, via
`billing`) and the usage-limit rule (index 2): the result is the first
matching rule's category. -/
theorem errorPatterns_first_match_wins_witness :
    ERROR_PATTERNS.findIdx (fun p => p.test ("billing usage limit")) ≤ 0 ∧
    (analyzeError (some ("billing usage limit")) (some 1)).category =
      (ERROR_PATTERNS[ERROR_PATTERNS.findIdx (fun p => p.test ("billing usage limit"))]?).map
        (fun p => p.category) :=
  errorPatterns_first_match_wins.1 ("billing usage limit") (some 1) 0 2
    (ERROR_PATTERNS.get ⟨0, by decide⟩) (ERROR_PATTERNS.get ⟨2, by decide⟩)
    (by decide) rfl rfl (by decide) (by decide)

end Toolkit

namespace Toolkit

/-- A system-priority scan over a list with no qualifying candidate yields
none. -/
theorem systemScan_eq_none (m : StatusMap) (now : Nat) (primary : String)
    (providers : ProviderMap) (l : List String)
    (h : ∀ pid ∈ l, ¬pid = primary →
      ∀ p, lookupProv providers pid = some p →
        (p.enabled && isAvailable m pid now) = false) :
    systemScan m now primary providers l = none := by
  induction l with
  | nil => rfl
  | cons pid rest ih =>
    have hrest : ∀ pid2 ∈ rest, ¬pid2 = primary →
        ∀ p, lookupProv providers pid2 = some p →
          (p.enabled && isAvailable m pid2 now) = false :=
      fun pid2 h2 => h pid2 (List.mem_cons_of_mem _ h2)
    unfold systemScan
    cases hpp : pid == primary with
    | true =>
      rw [if_pos rfl]
      exact ih hrest
    | false =>
      rw [if_neg (by simp)]
      cases hlp : lookupProv providers pid with
      | none => exact ih hrest
      | some p =>
        simp only [h pid (List.mem_cons_self pid rest) (by simpa using hpp) p hlp]
        rw [if_neg (by simp)]
        exact ih hrest

/-- A falsy or primary-equal task fallback id resolves as if no task
fallback was given. -/
theorem getFallbackProvider_task_falsy (cfg : StatusConfig) (m : StatusMap)
    (now : Nat) (primary : String) (providers : ProviderMap) (tid : String)
    (h : tid = ("") ∨ tid = primary) :
    getFallbackProvider cfg m now primary providers (some tid) =
      getFallbackProvider cfg m now primary providers none := by
  rcases h with rfl | rfl <;> simp [getFallbackProvider]

/-- A task fallback id with no provider record is skipped. -/
theorem getFallbackProvider_task_missing (cfg : StatusConfig) (m : StatusMap)
    (now : Nat) (primary : String) (providers : ProviderMap) (tid : String)
    (h : lookupProv providers tid = none) :
    getFallbackProvider cfg m now primary providers (some tid) =
      getFallbackProvider cfg m now primary providers none := by
  unfold getFallbackProvider
  cases hc : (!(tid == "") && !(tid == primary)) with
  | true => simp [hc, h]
  | false => simp [hc]

/-- A disabled or unavailable task fallback candidate is skipped. -/
theorem getFallbackProvider_task_unqualified (cfg : StatusConfig) (m : StatusMap)
    (now : Nat) (primary : String) (providers : ProviderMap) (tid : String)
    (tf : Provider) (h : lookupProv providers tid = some tf)
    (hfail : (tf.enabled && isAvailable m tf.id now) = false) :
    getFallbackProvider cfg m now primary providers (some tid) =
      getFallbackProvider cfg m now primary providers none := by
  unfold getFallbackProvider
  cases hc : (!(tid == "") && !(tid == primary)) with
  | true => simp [hc, h, hfail]
  | false => simp [hc]

/-- With no task fallback, an unqualified (or absent) configured fallback
and no qualifying system candidate, resolution yields none. -/
theorem getFallbackProvider_none_exhausted (cfg : StatusConfig) (m : StatusMap)
    (now : Nat) (primary : String) (providers : ProviderMap)
    (h2 : ∀ pp f, lookupProv providers primary = some pp →
      pp.fallbackProvider = some f →
      f = ("") ∨ lookupProv providers f = none ∨
      (∀ cf, lookupProv providers f = some cf →
        (cf.enabled && isAvailable m cf.id now) = false))
    (h3 : ∀ pid ∈ cfg.defaultFallbackPriority, ¬pid = primary →
      ∀ p, lookupProv providers pid = some p →
        (p.enabled && isAvailable m pid now) = false) :
    getFallbackProvider cfg m now primary providers none = none := by
  have hsys : systemScan m now primary providers cfg.defaultFallbackPriority = none :=
    systemScan_eq_none _ _ _ _ _ h3
  cases hpp : lookupProv providers primary with
  | none => simp [getFallbackProvider, hpp, hsys]
  | some pp =>
    cases hfb : pp.fallbackProvider with
    | none => simp [getFallbackProvider, hpp, hfb, hsys]
    | some f =>
      cases hc : f == "" with
      | true => simp [getFallbackProvider, hpp, hfb, hc, hsys]
      | false =>
        rcases h2 pp f hpp hfb with hfe | hfn | hfail
        · exact absurd hfe (by simpa using hc)
        · simp [getFallbackProvider, hpp, hfb, hc, hfn, hsys]
        · cases hcf : lookupProv providers f with
          | none => simp [getFallbackProvider, hpp, hfb, hc, hcf, hsys]
          | some cf =>
            simp [getFallbackProvider, hpp, hfb, hc, hcf, hfail cf hcf, hsys]

/-- A task tier that yields no candidate (absent, falsy, primary-equal,
missing or unqualified id) resolves as if no task fallback was given. -/
theorem getFallbackProvider_task_skipped (cfg : StatusConfig) (m : StatusMap)
    (now : Nat) (primary : String) (providers : ProviderMap)
    (taskFallbackId : Option String)
    (h1 : ∀ tid, taskFallbackId = some tid →
      tid = ("") ∨ tid = primary ∨ lookupProv providers tid = none ∨
      (∀ tf, lookupProv providers tid = some tf →
        (tf.enabled && isAvailable m tf.id now) = false)) :
    getFallbackProvider cfg m now primary providers taskFallbackId =
      getFallbackProvider cfg m now primary providers none := by
  cases taskFallbackId with
  | none => rfl
  | some tid =>
    rcases h1 tid rfl with he | hp | hmiss | hfail
    · exact getFallbackProvider_task_falsy cfg m now primary providers tid (Or.inl he)
    · exact getFallbackProvider_task_falsy cfg m now primary providers tid (Or.inr hp)
    · exact getFallbackProvider_task_missing cfg m now primary providers tid hmiss
    · cases hlt : lookupProv providers tid with
      | none => exact getFallbackProvider_task_missing cfg m now primary providers tid hlt
      | some tf =>
        exact getFallbackProvider_task_unqualified cfg m now primary providers tid tf
          hlt (hfail tf hlt)

/-- With no task fallback, a qualified configured fallback of the primary
is returned with source `provider` — before the system priority list is
even consulted. -/
theorem getFallbackProvider_none_provider_positive (cfg : StatusConfig)
    (m : StatusMap) (now : Nat) (primary : String) (providers : ProviderMap)
    (pp cf : Provider) (f : String)
    (hpp : lookupProv providers primary = some pp)
    (hfb : pp.fallbackProvider = some f) (hf : ¬f = (""))
    (hcf : lookupProv providers f = some cf)
    (hen : cf.enabled = true) (hav : isAvailable m cf.id now = true) :
    getFallbackProvider cfg m now primary providers none =
      some (cf, ("provider")) := by
  simp [getFallbackProvider, hpp, hfb, hcf, hen, hav, beq_eq_false_iff_ne.mpr hf]

/-- With no task fallback and a provider tier that yields no candidate
(primary missing, no configured fallback id, or a falsy/missing/unqualified
one), resolution is exactly the system priority scan. -/
theorem getFallbackProvider_provider_tier_none (cfg : StatusConfig)
    (m : StatusMap) (now : Nat) (primary : String) (providers : ProviderMap)
    (h2 : ∀ pp f, lookupProv providers primary = some pp →
      pp.fallbackProvider = some f →
      f = ("") ∨ lookupProv providers f = none ∨
      (∀ cf, lookupProv providers f = some cf →
        (cf.enabled && isAvailable m cf.id now) = false)) :
    getFallbackProvider cfg m now primary providers none =
      systemScan m now primary providers cfg.defaultFallbackPriority := by
  cases hpp : lookupProv providers primary with
  | none => simp [getFallbackProvider, hpp]
  | some pp =>
    cases hfb : pp.fallbackProvider with
    | none => simp [getFallbackProvider, hpp, hfb]
    | some f =>
      cases hc : f == "" with
      | true => simp [getFallbackProvider, hpp, hfb, hc]
      | false =>
        rcases h2 pp f hpp hfb with hfe | hfn | hfail
        · exact absurd hfe (by simpa using hc)
        · simp [getFallbackProvider, hpp, hfb, hc, hfn]
        · cases hcf : lookupProv providers f with
          | none => simp [getFallbackProvider, hpp, hfb, hc, hcf]
          | some cf =>
            simp [getFallbackProvider, hpp, hfb, hc, hcf, hfail cf hcf]

/-- The system priority scan returns the first entry past the skipped
prefix that is distinct from the primary, present, enabled and available,
with source `system`. -/
theorem systemScan_positive (m : StatusMap) (now : Nat) (primary : String)
    (providers : ProviderMap) (l1 l2 : List String) (pid : String) (p : Provider)
    (hskip : ∀ q ∈ l1, q = primary ∨ lookupProv providers q = none ∨
      (∀ pr, lookupProv providers q = some pr →
        (pr.enabled && isAvailable m q now) = false))
    (hnp : ¬pid = primary) (hp : lookupProv providers pid = some p)
    (hen : p.enabled = true) (hav : isAvailable m pid now = true) :
    systemScan m now primary providers (l1 ++ pid :: l2) =
      some (p, ("system")) := by
  induction l1 with
  | nil =>
    rw [List.nil_append]
    unfold systemScan
    rw [if_neg (by simp [hnp])]
    simp only [hp]
    rw [if_pos (by simp [hen, hav])]
  | cons q l1x ih =>
    have hrest : ∀ q2 ∈ l1x, q2 = primary ∨ lookupProv providers q2 = none ∨
        (∀ pr, lookupProv providers q2 = some pr →
          (pr.enabled && isAvailable m q2 now) = false) :=
      fun q2 h2 => hskip q2 (List.mem_cons_of_mem _ h2)
    rw [List.cons_append]
    unfold systemScan
    rcases hskip q (List.mem_cons_self q l1x) with rfl | hqnone | hqfail
    · rw [if_pos (by simp)]
      exact ih hrest
    · cases hc : q == primary with
      | true =>
        rw [if_pos rfl]
        exact ih hrest
      | false =>
        rw [if_neg (by simp)]
        simp only [hqnone]
        exact ih hrest
    · cases hc : q == primary with
      | true =>
        rw [if_pos rfl]
        exact ih hrest
      | false =>
        rw [if_neg (by simp)]
        cases hlq : lookupProv providers q with
        | none => exact ih hrest
        | some pr =>
          simp only [hqfail pr hlq]
          rw [if_neg (by simp)]
          exact ih hrest

/-- C5: `getFallbackProvider` resolves task-level id, then the primary's
configured fallback, then the system priority list skipping the primary;
a candidate is accepted only if enabled and available, an unqualified
candidate is skipped in favor of the next tier, and with every tier
exhausted the result is none; a qualified task-level candidate wins with
source `task`, a qualified configured fallback (after a skipped task tier)
wins with source `provider` whatever the system list holds, and the first
qualifying system-list candidate wins with source `system`. -/
theorem getFallbackProvider_resolution :
    (∀ (cfg : StatusConfig) (m : StatusMap) (now : Nat) (primary : String)
      (providers : ProviderMap) (tid : String) (tf : Provider),
      ¬tid = ("") → ¬tid = primary →
      lookupProv providers tid = some tf →
      tf.enabled = true → isAvailable m tf.id now = true →
      getFallbackProvider cfg m now primary providers (some tid) =
        some (tf, ("task"))) ∧
    (∀ (cfg : StatusConfig) (m : StatusMap) (now : Nat) (primary : String)
      (providers : ProviderMap) (tid : String),
      lookupProv providers tid = none →
      getFallbackProvider cfg m now primary providers (some tid) =
        getFallbackProvider cfg m now primary providers none) ∧
    (∀ (cfg : StatusConfig) (m : StatusMap) (now : Nat) (primary : String)
      (providers : ProviderMap) (tid : String) (tf : Provider),
      lookupProv providers tid = some tf →
      (tf.enabled && isAvailable m tf.id now) = false →
      getFallbackProvider cfg m now primary providers (some tid) =
        getFallbackProvider cfg m now primary providers none) ∧
    (∀ (cfg : StatusConfig) (m : StatusMap) (now : Nat) (primary : String)
      (providers : ProviderMap) (pp cf : Provider) (f : String),
      lookupProv providers primary = some pp →
      pp.fallbackProvider = some f → ¬f = ("") →
      lookupProv providers f = some cf →
      (cf.enabled && isAvailable m cf.id now) = false →
      getFallbackProvider cfg m now primary providers none =
        systemScan m now primary providers cfg.defaultFallbackPriority) ∧
    (∀ (cfg : StatusConfig) (m : StatusMap) (now : Nat) (primary : String)
      (providers : ProviderMap) (taskFallbackId : Option String),
      (∀ tid, taskFallbackId = some tid →
        tid = ("") ∨ tid = primary ∨ lookupProv providers tid = none ∨
        (∀ tf, lookupProv providers tid = some tf →
          (tf.enabled && isAvailable m tf.id now) = false)) →
      (∀ pp f, lookupProv providers primary = some pp →
        pp.fallbackProvider = some f →
        f = ("") ∨ lookupProv providers f = none ∨
        (∀ cf, lookupProv providers f = some cf →
          (cf.enabled && isAvailable m cf.id now) = false)) →
      (∀ pid ∈ cfg.defaultFallbackPriority, ¬pid = primary →
        ∀ p, lookupProv providers pid = some p →
          (p.enabled && isAvailable m pid now) = false) →
      getFallbackProvider cfg m now primary providers taskFallbackId = none) ∧
    (∀ (cfg : StatusConfig) (m : StatusMap) (now : Nat) (primary : String)
      (providers : ProviderMap) (taskFallbackId : Option String)
      (pp cf : Provider) (f : String),
      (∀ tid, taskFallbackId = some tid →
        tid = ("") ∨ tid = primary ∨ lookupProv providers tid = none ∨
        (∀ tf, lookupProv providers tid = some tf →
          (tf.enabled && isAvailable m tf.id now) = false)) →
      lookupProv providers primary = some pp →
      pp.fallbackProvider = some f → ¬f = ("") →
      lookupProv providers f = some cf →
      cf.enabled = true → isAvailable m cf.id now = true →
      getFallbackProvider cfg m now primary providers taskFallbackId =
        some (cf, ("provider"))) ∧
    (∀ (cfg : StatusConfig) (m : StatusMap) (now : Nat) (primary : String)
      (providers : ProviderMap) (taskFallbackId : Option String)
      (l1 l2 : List String) (pid : String) (p : Provider),
      (∀ tid, taskFallbackId = some tid →
        tid = ("") ∨ tid = primary ∨ lookupProv providers tid = none ∨
        (∀ tf, lookupProv providers tid = some tf →
          (tf.enabled && isAvailable m tf.id now) = false)) →
      (∀ pp f, lookupProv providers primary = some pp →
        pp.fallbackProvider = some f →
        f = ("") ∨ lookupProv providers f = none ∨
        (∀ cf, lookupProv providers f = some cf →
          (cf.enabled && isAvailable m cf.id now) = false)) →
      cfg.defaultFallbackPriority = l1 ++ pid :: l2 →
      (∀ q ∈ l1, q = primary ∨ lookupProv providers q = none ∨
        (∀ pr, lookupProv providers q = some pr →
          (pr.enabled && isAvailable m q now) = false)) →
      ¬pid = primary → lookupProv providers pid = some p →
      p.enabled = true → isAvailable m pid now = true →
      getFallbackProvider cfg m now primary providers taskFallbackId =
        some (p, ("system"))) := by
  refine ⟨?_, ?_, ?_, ?_, ?_, ?_, ?_⟩
  · intro cfg m now primary providers tid tf hne hnp hlook hen hav
    simp [getFallbackProvider, hlook, hen, hav,
      beq_eq_false_iff_ne.mpr hne, beq_eq_false_iff_ne.mpr hnp]
  · intro cfg m now primary providers tid h
    exact getFallbackProvider_task_missing cfg m now primary providers tid h
  · intro cfg m now primary providers tid tf h hfail
    exact getFallbackProvider_task_unqualified cfg m now primary providers tid tf h hfail
  · intro cfg m now primary providers pp cf f hpp hfb hf hcf hfail
    simp [getFallbackProvider, hpp, hfb, hcf, hfail, beq_eq_false_iff_ne.mpr hf]
  · intro cfg m now primary providers taskFallbackId h1 h2 h3
    rw [getFallbackProvider_task_skipped cfg m now primary providers taskFallbackId h1]
    exact getFallbackProvider_none_exhausted cfg m now primary providers h2 h3
  · intro cfg m now primary providers taskFallbackId pp cf f h1 hpp hfb hf hcf hen hav
    rw [getFallbackProvider_task_skipped cfg m now primary providers taskFallbackId h1]
    exact getFallbackProvider_none_provider_positive cfg m now primary providers
      pp cf f hpp hfb hf hcf hen hav
  · intro cfg m now primary providers taskFallbackId l1 l2 pid p h1 h2 hlist hskip hnp hp hen hav
    rw [getFallbackProvider_task_skipped cfg m now primary providers taskFallbackId h1,
      getFallbackProvider_provider_tier_none cfg m now primary providers h2, hlist]
    exact systemScan_positive m now primary providers l1 l2 pid p hskip hnp hp hen hav

/-- Witness for C5 at concrete inputs: a qualified task candidate wins with
source `task`; with no task id the qualified configured fallback `c` wins
with source `provider`; with neither, the first qualifying system-list
entry `s` (after the primary and a disabled entry) wins with source
`system`; and with every tier disqualified the result is none. -/
theorem getFallbackProvider_resolution_witness :
    getFallbackProvider {} [] 0 ("a") c5Providers (some ("t")) =
      some ({ id := ("t"), enabled := true }, ("task")) ∧
    getFallbackProvider {} [] 0 ("a") c5Providers none =
      some ({ id := ("c"), enabled := true }, ("provider")) ∧
    getFallbackProvider c5Cfg2 [] 0 ("a") c5Providers3 none =
      some ({ id := ("s"), enabled := true }, ("system")) ∧
    getFallbackProvider c5Cfg [] 0 ("a") c5Providers2 none = none :=
  ⟨getFallbackProvider_resolution.1 {} [] 0 ("a") c5Providers ("t")
      { id := ("t"), enabled := true }
      (by decide) (by decide) rfl rfl rfl,
   getFallbackProvider_resolution.2.2.2.2.2.1 {} [] 0 ("a") c5Providers none
      { id := ("a"), enabled := true, fallbackProvider := some ("c") }
      { id := ("c"), enabled := true } ("c")
      (fun tid h => Option.noConfusion h)
      rfl rfl (by decide) rfl rfl rfl,
   getFallbackProvider_resolution.2.2.2.2.2.2 c5Cfg2 [] 0 ("a") c5Providers3 none
      [("a"), ("b")] [] ("s") { id := ("s"), enabled := true }
      (fun tid h => Option.noConfusion h)
      (fun pp f hpp hf => by
        rw [show lookupProv c5Providers3 ("a") =
            some { id := ("a"), enabled := true } from rfl] at hpp
        cases hpp
        exact Option.noConfusion hf)
      rfl
      (fun q hq => by
        simp only [List.mem_cons, List.not_mem_nil, or_false] at hq
        rcases hq with rfl | rfl
        · exact Or.inl rfl
        · refine Or.inr (Or.inr (fun pr hpr => ?_))
          rw [show lookupProv c5Providers3 ("b") =
              some { id := ("b"), enabled := false } from rfl] at hpr
          cases hpr
          rfl)
      (by decide) rfl rfl rfl,
   getFallbackProvider_resolution.2.2.2.2.1 c5Cfg [] 0 ("a") c5Providers2 none
      (fun tid h => Option.noConfusion h)
      (fun pp f hpp hf => by
        rw [show lookupProv c5Providers2 ("a") = some { id := ("a"), enabled := true } from rfl] at hpp
        cases hpp
        exact Option.noConfusion hf)
      (fun pid hpid hne p hp => by
        simp only [c5Cfg, List.mem_cons, List.not_mem_nil, or_false] at hpid
        rcases hpid with rfl | rfl
        · exact absurd rfl hne
        · rw [show lookupProv c5Providers2 ("b") =
              some { id := ("b"), enabled := false } from rfl] at hp
          cases hp
          rfl)⟩

end Toolkit

namespace Toolkit

/-- Every entry of an updated map is the written pair or an original entry. -/
theorem mem_setKey {m : StatusMap} {k : String} {v : StatusRecord}
    {kv : String × StatusRecord} (h : kv ∈ setKey m k v) :
    kv = (k, v) ∨ kv ∈ m := by
  induction m with
  | nil =>
    rcases List.mem_singleton.mp h with rfl
    exact Or.inl rfl
  | cons hd rest ih =>
    unfold setKey at h
    by_cases hk : hd.1 == k
    · rw [if_pos hk] at h
      rcases List.mem_cons.mp h with rfl | h2
      · exact Or.inl rfl
      · exact Or.inr (List.mem_cons_of_mem _ h2)
    · rw [if_neg hk] at h
      rcases List.mem_cons.mp h with rfl | h2
      · exact Or.inr (List.mem_cons_self _ _)
      · rcases ih h2 with h3 | h3
        · exact Or.inl h3
        · exact Or.inr (List.mem_cons_of_mem _ h3)

/-- The plain Available record satisfies the status invariant. -/
theorem availableRecord_invariant (now : Nat) : StatusInvariant (availableRecord now) :=
  fun _ => ⟨rfl, rfl⟩

/-- The `init()` sweep preserves the status invariant of every entry. -/
theorem initRun_invariant (now : Nat) (m : StatusMap)
    (h : ∀ kv ∈ m, StatusInvariant kv.2) :
    ∀ kv ∈ (initRun now m).1, StatusInvariant kv.2 := by
  induction m with
  | nil => intro kv hkv; cases hkv
  | cons hd rest ih =>
    have hrest : ∀ kv ∈ rest, StatusInvariant kv.2 :=
      fun kv hkv => h kv (List.mem_cons_of_mem _ hkv)
    have hhd : StatusInvariant hd.2 := h hd (List.mem_cons_self _ _)
    intro kv hkv
    unfold initRun at hkv
    rcases hd with ⟨k, r⟩
    rcases hr : r.estimatedRecovery with _ | t
    · simp only [hr] at hkv
      rcases List.mem_cons.mp hkv with rfl | h2
      · exact hhd
      · exact ih hrest kv h2
    · simp only [hr] at hkv
      by_cases ht : now > t
      · simp only [ht, if_true] at hkv
        rcases List.mem_cons.mp hkv with rfl | h2
        · exact availableRecord_invariant now
        · exact ih hrest kv h2
      · simp only [ht, if_false] at hkv
        rcases List.mem_cons.mp hkv with rfl | h2
        · exact hhd
        · exact ih hrest kv h2

/-- Every entry of a reachable status map satisfies the invariant. -/
theorem reachable_invariant {cfg : StatusConfig} {m : StatusMap}
    (h : Reachable cfg m) : ∀ kv ∈ m, StatusInvariant kv.2 := by
  induction h with
  | empty => intro kv hkv; cases hkv
  | sweep m now _ ih => exact initRun_invariant now m ih
  | usage m providerId errorInfo now _ ih =>
    intro kv hkv
    rcases mem_setKey hkv with rfl | h2
    · intro hav; exact Bool.noConfusion hav
    · exact ih kv h2
  | rate m providerId now _ ih =>
    intro kv hkv
    rcases mem_setKey hkv with rfl | h2
    · intro hav; exact Bool.noConfusion hav
    · exact ih kv h2
  | recover m providerId now _ ih =>
    intro kv hkv
    rcases mem_setKey hkv with rfl | h2
    · exact fun _ => ⟨rfl, rfl⟩
    · exact ih kv h2

/-- C6: in every state reachable by the Tracker's operations, every record
returned by `getStatus` — stored or synthesized for an unknown id — that is
Available has reason `ok` and no estimated-recovery timestamp. -/
theorem providerStatus_available_invariant :
    ∀ (cfg : StatusConfig) (m : StatusMap), Reachable cfg m →
      ∀ (providerId : String) (now : Nat),
        (getStatus m providerId now).available = true →
        (getStatus m providerId now).reason = ("ok") ∧
        (getStatus m providerId now).estimatedRecovery = none := by
  intro cfg m h providerId now
  unfold getStatus
  cases hl : lookupRec m providerId with
  | none => exact fun _ => ⟨rfl, rfl⟩
  | some r =>
    rcases Option.map_eq_some'.mp hl with ⟨kv, hfind, hsnd⟩
    have hmem := List.mem_of_find?_eq_some hfind
    have hinv := reachable_invariant h kv hmem
    rw [hsnd] at hinv
    exact hinv

/-- Witness for C6 at a concrete reachable state (usage-limited then marked
available again): the Available record carries reason `ok` and no
estimated recovery. -/
theorem providerStatus_available_invariant_witness :
    (getStatus c6Map ("x") 7).reason = ("ok") ∧
    (getStatus c6Map ("x") 7).estimatedRecovery = none :=
  providerStatus_available_invariant {} c6Map
    (Reachable.recover _ ("x") 5 (Reachable.usage [] ("x") {} 0 Reachable.empty))
    ("x") 7 (by decide)

end Toolkit

namespace Toolkit

/-- C7 counterexample: the `init()` sweep replaces an elapsed entry with a
record that has no failure-counter field at all (`failureCount` absent),
not a counter equal to 0. -/
theorem init_failureCount_counterexample :
    (lookupRec (initRun 100 c7Map).1 ("p")).map (fun r => r.available) = some true ∧
    (lookupRec (initRun 100 c7Map).1 ("p")).map (fun r => r.failureCount) = some none ∧
    ¬(lookupRec (initRun 100 c7Map).1 ("p")).map (fun r => r.failureCount) = some (some 0) := by
  exact ⟨by decide, by decide, by decide⟩

/-- C7 (amended): `init()` transitions every entry whose estimated-recovery
timestamp has strictly elapsed to the plain Available record (reason `ok`,
no recovery fields, and the failure-counter field cleared — absent rather
than 0), leaves the other entries unchanged, and reports a change (hence
persists) exactly when at least one entry was transitioned. -/
theorem init_sweep_amended :
    ∀ (now : Nat) (m : StatusMap),
      (∀ (k : String) (r : StatusRecord) (t : Nat),
        (k, r) ∈ m → r.estimatedRecovery = some t → now > t →
        (k, availableRecord now) ∈ (initRun now m).1) ∧
      (∀ (k : String) (r : StatusRecord),
        (k, r) ∈ m → (∀ t, r.estimatedRecovery = some t → ¬now > t) →
        (k, r) ∈ (initRun now m).1) ∧
      ((initRun now m).2 = true ↔
        ∃ kv ∈ m, ∃ t, kv.2.estimatedRecovery = some t ∧ now > t) ∧
      ((availableRecord now).available = true ∧ (availableRecord now).reason = ("ok") ∧
        (availableRecord now).estimatedRecovery = none ∧
        (availableRecord now).failureCount = none) := by
  intro now m
  refine ⟨?_, ?_, ?_, ⟨rfl, rfl, rfl, rfl⟩⟩
  · induction m with
    | nil => intro k r t hmem; cases hmem
    | cons hd rest ih =>
      intro k r t hmem hrec ht
      rcases hd with ⟨k0, r0⟩
      unfold initRun
      rcases List.mem_cons.mp hmem with heq | h2
      · injection heq with hk hr0
        subst hk
        subst hr0
        simp only [hrec, ht, if_true]
        exact List.mem_cons_self _ _
      · have hin := ih k r t h2 hrec ht
        rcases hr0 : r0.estimatedRecovery with _ | t0
        · simp only [hr0]
          exact List.mem_cons_of_mem _ hin
        · by_cases ht0 : now > t0
          · simp only [hr0, ht0, if_true]
            exact List.mem_cons_of_mem _ hin
          · simp only [hr0, ht0, if_false]
            exact List.mem_cons_of_mem _ hin
  · induction m with
    | nil => intro k r hmem; cases hmem
    | cons hd rest ih =>
      intro k r hmem hkeep
      rcases hd with ⟨k0, r0⟩
      unfold initRun
      rcases List.mem_cons.mp hmem with heq | h2
      · injection heq with hk hr0
        subst hk
        subst hr0
        rcases hr : r.estimatedRecovery with _ | t
        · simp only [hr]
          exact List.mem_cons_self _ _
        · simp only [hr, hkeep t hr, if_false]
          exact List.mem_cons_self _ _
      · have hin := ih k r h2 hkeep
        rcases hr0 : r0.estimatedRecovery with _ | t0
        · simp only [hr0]
          exact List.mem_cons_of_mem _ hin
        · by_cases ht0 : now > t0
          · simp only [hr0, ht0, if_true]
            exact List.mem_cons_of_mem _ hin
          · simp only [hr0, ht0, if_false]
            exact List.mem_cons_of_mem _ hin
  · induction m with
    | nil => simp [initRun]
    | cons hd rest ih =>
      rcases hd with ⟨k0, r0⟩
      unfold initRun
      rcases hr0 : r0.estimatedRecovery with _ | t0
      · simp only [hr0]
        rw [ih]
        constructor
        · rintro ⟨kv, hkv, t, hrec, ht⟩
          exact ⟨kv, List.mem_cons_of_mem _ hkv, t, hrec, ht⟩
        · rintro ⟨kv, hkv, t, hrec, ht⟩
          rcases List.mem_cons.mp hkv with rfl | h2
          · rw [hr0] at hrec
            exact Option.noConfusion hrec
          · exact ⟨kv, h2, t, hrec, ht⟩
      · by_cases ht0 : now > t0
        · simp only [hr0, ht0, if_true]
          constructor
          · intro _
            exact ⟨(k0, r0), List.mem_cons_self _ _, t0, hr0, ht0⟩
          · intro _
            trivial
        · simp only [hr0, ht0, if_false]
          rw [ih]
          constructor
          · rintro ⟨kv, hkv, t, hrec, ht⟩
            exact ⟨kv, List.mem_cons_of_mem _ hkv, t, hrec, ht⟩
          · rintro ⟨kv, hkv, t, hrec, ht⟩
            rcases List.mem_cons.mp hkv with rfl | h2
            · rw [hr0] at hrec
              injection hrec with ht0eq
              subst ht0eq
              exact absurd ht ht0
            · exact ⟨kv, h2, t, hrec, ht⟩

/-- Witness for C7's amended theorem on a concrete map with one elapsed and
one not-yet-elapsed entry: the elapsed entry becomes the Available record,
the other is kept, and the change flag (the persist condition) is set. -/
theorem init_sweep_amended_witness :
    (("p"), availableRecord 100) ∈ (initRun 100 c7Map2).1 ∧
    (("q"), c7KeepRecord) ∈ (initRun 100 c7Map2).1 ∧
    (initRun 100 c7Map2).2 = true :=
  ⟨(init_sweep_amended 100 c7Map2).1 ("p") c7Record 10 (by decide) rfl (by decide),
   (init_sweep_amended 100 c7Map2).2.1 ("q") c7KeepRecord (by decide)
     (fun t ht => by
       rw [show c7KeepRecord.estimatedRecovery = some 1000 from rfl] at ht
       injection ht with h2
       subst h2
       decide),
   (init_sweep_amended 100 c7Map2).2.2.1.mpr
     ⟨(("p"), c7Record), by decide, 10, rfl, by decide⟩⟩

end Toolkit
